import Mathlib

/-!
# Transaction status updates over a SQL table

A shallow embedding of package `transaction`
(`services/api/transaction/transaction.go`) and of the two goroutines of
`TestReadThenUpdateRace` (`transaction_test.go`).

The package consists of two SQL statements sent through `db.Exec`, each
function returning the error of `db.Exec` as it is:

* `UpdateStatus`: `UPDATE transactions SET status = ? where transaction_id = ?`
* `CreateTransaction`: `INSERT INTO transactions(transaction_id, amount, status) VALUES(?, ?, ?)`

The state is what stands behind the `*sql.DB` handle: the rows of table
`transactions` and the conditions under which `db.Exec` fails.  The declaration
of the table is not part of the package, so what depends on it is a field of
the state: whether `transaction_id` is a primary key, which statements the
driver or the server fails (a closed handle, a missing table, a value its
column rejects), and the values the date columns of a new row get.  A statement
that fails is taken to change nothing; a statement that executes stores the
values as supplied and compares string columns by equality.
-/

namespace TxProcessor

/-- The errors the statements can come back with. -/
inductive DBError where
  /-- The server refuses an `INSERT` whose key is already stored. -/
  | duplicateEntry
  /-- Result of `QueryRow(..).Scan` when no row matches (`sql.ErrNoRows`). -/
  | errNoRows
  /-- Any other error of the driver or the server, by its code. -/
  | execError (code : Nat)
  deriving DecidableEq, Repr

/-- The Go struct `Transaction`, one row of `transactions`.  The two dates are
`time.Time` values, kept as Unix nanoseconds. -/
structure Transaction where
  ID : String
  Amount : Float
  Status : String
  DateUpdated : Int
  DateCreated : Int

/-- The two statements the package passes to `db.Exec`, with their arguments in
the order of the call. -/
inductive Statement where
  /-- `UPDATE transactions SET status = ? where transaction_id = ?`. -/
  | update (status : String) (txID : String)
  /-- `INSERT INTO transactions(transaction_id, amount, status) VALUES(?, ?, ?)`. -/
  | insert (txID : String) (amount : Float) (status : String)

/-- What stands behind the `*sql.DB` handle.

* `primaryKey`: whether `transaction_id` is declared as primary key.
* `execFailure`: the error with which the driver or the server fails a
  statement for a reason other than a stored key, `none` when it executes.
* `dateUpdatedDefault`, `dateCreatedDefault`: what the table gives the date
  columns of an inserted row, which the `INSERT` does not name.
* `rows`: the rows of `transactions` in storage order. -/
structure DB where
  primaryKey : Bool
  execFailure : Statement → Option DBError
  dateUpdatedDefault : Int
  dateCreatedDefault : Int
  rows : List Transaction

/-- The row an `UPDATE .. SET status = ? where transaction_id = ?` leaves in
place of `r`: the statement names the status column only. -/
def setStatus (txID status : String) (r : Transaction) : Transaction :=
  if r.ID = txID then { r with Status := status } else r

/-- `UpdateStatus(db, txID, status)`: the function returns the error of
`db.Exec`.  When the statement executes, every row whose `transaction_id` is
`txID` gets `status`, and matching no row is not an error.  The result is the
error (`none` for `nil`) and the database after the call. -/
def UpdateStatus (db : DB) (txID : String) (status : String) : Option DBError × DB :=
  match db.execFailure (Statement.update status txID) with
  | some err => (some err, db)
  | none => (none, { db with rows := db.rows.map (setStatus txID status) })

/-- Whether a row with this `transaction_id` is stored. -/
def hasID (db : DB) (txID : String) : Bool :=
  db.rows.any (fun r => decide (r.ID = txID))

/-- `CreateTransaction(db, txID, amount, status)`: the function returns the
error of `db.Exec`.  When the statement reaches the table, a primary key makes
the server reject a key that is already stored, and otherwise one row with the
three supplied values is inserted. -/
def CreateTransaction (db : DB) (txID : String) (amount : Float) (status : String) :
    Option DBError × DB :=
  match db.execFailure (Statement.insert txID amount status) with
  | some err => (some err, db)
  | none =>
    if db.primaryKey && hasID db txID then (some DBError.duplicateEntry, db)
    else
      (none, { db with rows := db.rows ++
        [{ ID := txID, Amount := amount, Status := status,
           DateUpdated := db.dateUpdatedDefault, DateCreated := db.dateCreatedDefault }] })

/-- The first stored row with this `transaction_id`. -/
def getRow (db : DB) (txID : String) : Option Transaction :=
  db.rows.find? (fun r => decide (r.ID = txID))

/-- The read of the test,
`db.QueryRow("SELECT status FROM transactions WHERE transaction_id = ?", txID).Scan(&s)`:
the status of the first matching row, `sql.ErrNoRows` when there is none. -/
def readStatus (db : DB) (txID : String) : Except DBError String :=
  match getRow db txID with
  | some r => Except.ok r.Status
  | none => Except.error DBError.errNoRows

/-- The status strings used by callers. -/
def PENDING : String := "PENDING"

/-- Status written by both systems of the test. -/
def COMPLETED : String := "COMPLETED"

/-- Further terminal status of the state graph. -/
def FAILED : String := "FAILED"

/-- Further terminal status of the state graph. -/
def CANCELLED : String := "CANCELLED"

/-! ## The two systems of `TestReadThenUpdateRace` -/

/-- The two goroutines of the test. -/
inductive System where
  | A
  | B
  deriving DecidableEq, Repr

/-- Field `action` of a `systemEvent`. -/
inductive Action where
  | read
  | update
  deriving DecidableEq, Repr

/-- A `systemEvent` of the test; the position in the event list stands for the
timestamp. -/
structure SystemEvent where
  system : System
  action : Action
  status : String
  deriving DecidableEq, Repr

/-- Where a goroutine stands: before its read, between a read that returned
`PENDING` and its update, or returned. -/
inductive Caller where
  | start
  | sawPending
  | finished
  deriving DecidableEq, Repr

/-- State of one iteration of the test while the goroutines run. -/
structure World where
  db : DB
  a : Caller
  b : Caller
  events : List SystemEvent

/-- The goroutine state of a system. -/
def World.caller (w : World) : System → Caller
  | System.A => w.a
  | System.B => w.b

/-- Replaces the goroutine state of a system. -/
def World.setCaller (w : World) (s : System) (c : Caller) : World :=
  match s with
  | System.A => { w with a := c }
  | System.B => { w with b := c }

/-- One database statement of goroutine `s` together with the event it sends.
A goroutine first reads the status (returning without an event when the read
fails), and when the status read is `PENDING` it calls
`UpdateStatus(db, txID, "COMPLETED")` and sends an update event whatever the
returned error. -/
def step (txID : String) (w : World) (s : System) : World :=
  match w.caller s with
  | Caller.start =>
    match readStatus w.db txID with
    | Except.error _ => w.setCaller s Caller.finished
    | Except.ok currentStatus =>
      let w1 : World :=
        { w with events := w.events ++ [{ system := s, action := Action.read, status := currentStatus }] }
      if currentStatus = PENDING then w1.setCaller s Caller.sawPending
      else w1.setCaller s Caller.finished
  | Caller.sawPending =>
    let w1 : World :=
      { w with
        db := (UpdateStatus w.db txID COMPLETED).2
        events := w.events ++ [{ system := s, action := Action.update, status := COMPLETED }] }
    w1.setCaller s Caller.finished
  | Caller.finished => w

/-- Both goroutines launched, nothing executed yet. -/
def World.init (db : DB) : World :=
  { db := db, a := Caller.start, b := Caller.start, events := [] }

/-- Runs the statements of the two goroutines in the order given by the
schedule. -/
def run (txID : String) (schedule : List System) (w : World) : World :=
  schedule.foldl (step txID) w

/-- The counter `updateCount` of the test: the number of update events. -/
def updateCount (events : List SystemEvent) : Nat :=
  (events.filter (fun e => decide (e.action = Action.update))).length

/-- The flag `sawPendingA` or `sawPendingB` of the test. -/
def sawPending (events : List SystemEvent) (s : System) : Bool :=
  events.any (fun e => decide (e.action = Action.read) && decide (e.status = PENDING) &&
    decide (e.system = s))

/-- The flag `updatedA` or `updatedB` of the test. -/
def updated (events : List SystemEvent) (s : System) : Bool :=
  events.any (fun e => decide (e.action = Action.update) && decide (e.system = s))

/-- The condition under which the test reports
"Race condition detected: Both systems saw PENDING status and performed updates". -/
def raceDetected (events : List SystemEvent) : Bool :=
  sawPending events System.A && sawPending events System.B &&
    updated events System.A && updated events System.B

/-- A database without rows on which every statement executes. -/
def emptyDB : DB :=
  { primaryKey := true, execFailure := fun _ => none,
    dateUpdatedDefault := 0, dateCreatedDefault := 0, rows := [] }

/-- Table of iteration 0 of the test after its `CreateTransaction`. -/
def testDB : DB :=
  (CreateTransaction emptyDB "tx_concurrent_test_0" 100.00 PENDING).2

/-- A database holding the one row given, on which every statement executes. -/
def singleDB (r : Transaction) : DB :=
  { emptyDB with rows := [r] }

/-- A stored pending transaction. -/
def pendingTx : Transaction :=
  { ID := "tx1", Amount := 100.00, Status := PENDING, DateUpdated := 0, DateCreated := 0 }

/-- A stored completed transaction. -/
def completedTx : Transaction :=
  { ID := "tx1", Amount := 100.00, Status := COMPLETED, DateUpdated := 0, DateCreated := 0 }

/-- A stored cancelled transaction. -/
def cancelledTx : Transaction :=
  { ID := "tx1", Amount := 100.00, Status := CANCELLED, DateUpdated := 0, DateCreated := 0 }

/-- A stored failed transaction. -/
def failedTx : Transaction :=
  { ID := "tx9", Amount := 12.50, Status := FAILED, DateUpdated := 0, DateCreated := 0 }

/-- The table of the test behind a closed handle: every statement comes back
with an error. -/
def closedDB : DB :=
  { testDB with execFailure := fun _ => some (DBError.execError 0) }

/-! ## Lemmas on the row update -/

theorem setStatus_ID (txID status : String) (r : Transaction) :
    (setStatus txID status r).ID = r.ID := by
  unfold setStatus
  split <;> rfl

theorem setStatus_Amount (txID status : String) (r : Transaction) :
    (setStatus txID status r).Amount = r.Amount := by
  unfold setStatus
  split <;> rfl

theorem setStatus_of_eq (txID status : String) (r : Transaction) (h : r.ID = txID) :
    setStatus txID status r = { r with Status := status } := by
  simp [setStatus, h]

theorem setStatus_of_ne (txID status : String) (r : Transaction) (h : r.ID ≠ txID) :
    setStatus txID status r = r := by
  simp [setStatus, h]

theorem setStatus_setStatus (txID s1 s2 : String) (r : Transaction) :
    setStatus txID s2 (setStatus txID s1 r) = setStatus txID s2 r := by
  by_cases h : r.ID = txID
  · simp [setStatus, h]
  · simp [setStatus, h]

theorem find_map_setStatus (txID status : String) (rows : List Transaction) :
    (rows.map (setStatus txID status)).find? (fun r => decide (r.ID = txID)) =
      (rows.find? (fun r => decide (r.ID = txID))).map (setStatus txID status) := by
  induction rows with
  | nil => rfl
  | cons r rest ih =>
    by_cases h : r.ID = txID
    · simp [List.find?, setStatus_ID, h]
    · simp [List.find?, setStatus_ID, h, ih]

theorem find_map_setStatus_of_ne (txID status other : String) (rows : List Transaction)
    (h : other ≠ txID) :
    (rows.map (setStatus txID status)).find? (fun r => decide (r.ID = other)) =
      rows.find? (fun r => decide (r.ID = other)) := by
  induction rows with
  | nil => rfl
  | cons r rest ih =>
    by_cases hr : r.ID = other
    · have hne : r.ID ≠ txID := fun e => h (hr ▸ e)
      simp [List.find?, setStatus_of_ne txID status r hne, hr]
    · simp [List.find?, setStatus_ID, hr, ih]

theorem map_setStatus_of_absent (txID status : String) (rows : List Transaction)
    (h : ∀ r ∈ rows, r.ID ≠ txID) : rows.map (setStatus txID status) = rows := by
  induction rows with
  | nil => rfl
  | cons r rest ih =>
    simp only [List.map_cons]
    rw [setStatus_of_ne txID status r (h r (List.mem_cons_self _ _)),
      ih (fun x hx => h x (List.mem_cons_of_mem _ hx))]

theorem find_append_of_absent (txID : String) (rows : List Transaction) (x : Transaction)
    (h : ∀ r ∈ rows, r.ID ≠ txID) :
    (rows ++ [x]).find? (fun r => decide (r.ID = txID))
      = [x].find? (fun r => decide (r.ID = txID)) := by
  induction rows with
  | nil => rfl
  | cons r rest ih =>
    have hr : r.ID ≠ txID := h r (List.mem_cons_self _ _)
    simp only [List.cons_append, List.find?_cons, hr, decide_False]
    exact ih (fun y hy => h y (List.mem_cons_of_mem _ hy))

/-! ## Lemmas on the two functions -/

/-- The error `UpdateStatus` returns is the error of executing its statement. -/
theorem UpdateStatus_fst (db : DB) (txID status : String) :
    (UpdateStatus db txID status).1 = db.execFailure (Statement.update status txID) := by
  unfold UpdateStatus
  split <;> simp_all

theorem UpdateStatus_of_ok (db : DB) (txID status : String)
    (h : (UpdateStatus db txID status).1 = none) :
    UpdateStatus db txID status
      = (none, { db with rows := db.rows.map (setStatus txID status) }) := by
  rw [UpdateStatus_fst] at h
  simp [UpdateStatus, h]

/-- A failed `UpdateStatus` leaves the database as it was. -/
theorem UpdateStatus_of_failed (db : DB) (txID status : String)
    (h : (UpdateStatus db txID status).1 ≠ none) :
    (UpdateStatus db txID status).2 = db := by
  rw [UpdateStatus_fst] at h
  unfold UpdateStatus
  split
  · rfl
  · next hnone => exact absurd hnone h

theorem UpdateStatus_execFailure (db : DB) (txID status : String) :
    (UpdateStatus db txID status).2.execFailure = db.execFailure := by
  unfold UpdateStatus
  split <;> rfl

theorem UpdateStatus_rows (db : DB) (txID status : String) :
    (UpdateStatus db txID status).2.rows = db.rows.map (setStatus txID status) ∨
    (UpdateStatus db txID status).2.rows = db.rows := by
  unfold UpdateStatus
  split
  · exact Or.inr rfl
  · exact Or.inl rfl

theorem getRow_UpdateStatus (db : DB) (txID status : String)
    (h : (UpdateStatus db txID status).1 = none) :
    getRow (UpdateStatus db txID status).2 txID = (getRow db txID).map (setStatus txID status) := by
  rw [UpdateStatus_of_ok db txID status h]
  simp only [getRow]
  exact find_map_setStatus txID status db.rows

theorem getRow_ID (db : DB) (txID : String) (r : Transaction) (h : getRow db txID = some r) :
    r.ID = txID := by
  have := List.find?_some h
  simpa using this

theorem getRow_isSome (db : DB) (txID : String) :
    (getRow db txID).isSome = hasID db txID := by
  unfold getRow hasID
  induction db.rows with
  | nil => rfl
  | cons r rest ih =>
    by_cases h : r.ID = txID
    · simp [List.find?, h]
    · simp [List.find?, h, ih]

theorem getRow_of_ne (db : DB) (txID status other : String) (h : other ≠ txID) :
    getRow (UpdateStatus db txID status).2 other = getRow db other := by
  unfold getRow
  rcases UpdateStatus_rows db txID status with hrows | hrows
  · rw [hrows]
    exact find_map_setStatus_of_ne txID status other db.rows h
  · rw [hrows]

theorem hasID_false_iff (db : DB) (txID : String) :
    hasID db txID = false ↔ ∀ r ∈ db.rows, r.ID ≠ txID := by
  simp [hasID]

/-- An `UpdateStatus` on an ID that is not stored leaves the database as it
was, whether the statement executes or not. -/
theorem UpdateStatus_of_absent (db : DB) (txID status : String)
    (h : ∀ r ∈ db.rows, r.ID ≠ txID) : (UpdateStatus db txID status).2 = db := by
  unfold UpdateStatus
  split
  · rfl
  · rw [map_setStatus_of_absent txID status db.rows h]

/-! ## The claims -/

/-- C1 (evaluation at the failing schedule): on the table of the test, where
the transaction is stored as `PENDING`, the interleaving read A, read B,
update A, update B makes both systems read `PENDING` and both perform the
update: the test's race condition holds, two updates are counted instead of
one, and the final status is `COMPLETED`. -/
theorem race_both_systems_update :
    readStatus testDB "tx_concurrent_test_0" = Except.ok PENDING ∧
    raceDetected (run "tx_concurrent_test_0" [System.A, System.B, System.A, System.B]
      (World.init testDB)).events = true ∧
    updateCount (run "tx_concurrent_test_0" [System.A, System.B, System.A, System.B]
      (World.init testDB)).events = 2 ∧
    readStatus (run "tx_concurrent_test_0" [System.A, System.B, System.A, System.B]
      (World.init testDB)).db "tx_concurrent_test_0" = Except.ok COMPLETED := by
  refine ⟨rfl, by decide, by decide, rfl⟩

/-- The same interleaving on any table in which the transaction reads as
`PENDING`: both systems read `PENDING` and both send their update event. -/
theorem race_of_pending (db : DB) (txID : String)
    (h : readStatus db txID = Except.ok PENDING) :
    raceDetected (run txID [System.A, System.B, System.A, System.B]
      (World.init db)).events = true ∧
    updateCount (run txID [System.A, System.B, System.A, System.B]
      (World.init db)).events = 2 := by
  simp [run, step, World.init, World.caller, World.setCaller, h, raceDetected, sawPending,
    updated, updateCount]

/-- When system A runs to its end before system B starts, B reads `COMPLETED`
and does not update: one update is counted and the test's race condition does
not hold. -/
theorem serial_schedule_single_update :
    raceDetected (run "tx_concurrent_test_0" [System.A, System.A, System.B, System.B]
      (World.init testDB)).events = false ∧
    updateCount (run "tx_concurrent_test_0" [System.A, System.A, System.B, System.B]
      (World.init testDB)).events = 1 := by
  refine ⟨by decide, by decide⟩

/-- Behind a closed handle `UpdateStatus` returns the error of `db.Exec` and the
table is the one before the call. -/
theorem UpdateStatus_closed_handle :
    (UpdateStatus closedDB "tx_concurrent_test_0" COMPLETED).1 = some (DBError.execError 0) ∧
    readStatus (UpdateStatus closedDB "tx_concurrent_test_0" COMPLETED).2
      "tx_concurrent_test_0" = Except.ok PENDING := by
  refine ⟨rfl, rfl⟩

/-- C2: under a primary key on `transaction_id`, `CreateTransaction` with an
ID that is already stored returns an error for every amount and status (the
error with which the statement fails to execute if it does, the duplicate
entry of the server otherwise), and the database after the call, the existing
record included, is the database before the call. -/
theorem CreateTransaction_duplicate (db : DB) (txID : String) (amount : Float) (status : String)
    (hpk : db.primaryKey = true) (hid : hasID db txID = true) :
    (CreateTransaction db txID amount status).1
      = some ((db.execFailure (Statement.insert txID amount status)).getD
          DBError.duplicateEntry) ∧
    (CreateTransaction db txID amount status).2 = db ∧
    getRow (CreateTransaction db txID amount status).2 txID = getRow db txID := by
  unfold CreateTransaction
  split
  · next e he => simp [he]
  · next he => simp [hpk, hid, he]

/-- Instance of C2 on the table of the test. -/
theorem CreateTransaction_duplicate_witness :
    (CreateTransaction testDB "tx_concurrent_test_0" 250.00 COMPLETED).1
      = some DBError.duplicateEntry ∧
    (CreateTransaction testDB "tx_concurrent_test_0" 250.00 COMPLETED).2 = testDB ∧
    getRow (CreateTransaction testDB "tx_concurrent_test_0" 250.00 COMPLETED).2
      "tx_concurrent_test_0" = getRow testDB "tx_concurrent_test_0" :=
  CreateTransaction_duplicate testDB "tx_concurrent_test_0" 250.00 COMPLETED (by decide)
    (by decide)

/-- C3 (counterexample): a transaction stored as `COMPLETED` is set back to
`PENDING` by `UpdateStatus`: the call returns no error and the stored status
has changed. -/
theorem terminal_status_overwritten :
    readStatus (singleDB completedTx) "tx1" = Except.ok COMPLETED ∧
    (UpdateStatus (singleDB completedTx) "tx1" PENDING).1 = none ∧
    readStatus (UpdateStatus (singleDB completedTx) "tx1" PENDING).2 "tx1"
      = Except.ok PENDING ∧
    PENDING ≠ COMPLETED := by
  refine ⟨rfl, rfl, rfl, by decide⟩

/-- C3 (amended): for a stored transaction whose status is `COMPLETED`,
`FAILED` or `CANCELLED` and an `UpdateStatus` on its ID with any target status
that returns no error, the status read afterwards is the target; it is the
earlier status only when the target equals it. -/
theorem UpdateStatus_terminal (db : DB) (txID target : String) (r : Transaction)
    (hr : getRow db txID = some r)
    (_ht : r.Status = COMPLETED ∨ r.Status = FAILED ∨ r.Status = CANCELLED)
    (hok : (UpdateStatus db txID target).1 = none) :
    readStatus (UpdateStatus db txID target).2 txID = Except.ok target ∧
    (readStatus (UpdateStatus db txID target).2 txID = Except.ok r.Status ↔
      target = r.Status) := by
  have hid : r.ID = txID := getRow_ID db txID r hr
  have hread : readStatus (UpdateStatus db txID target).2 txID = Except.ok target := by
    simp [readStatus, getRow_UpdateStatus db txID target hok, hr,
      setStatus_of_eq txID target r hid]
  refine ⟨hread, ?_⟩
  rw [hread]
  constructor
  · intro h
    injection h
  · intro h
    rw [h]

/-- Instance of the amended C3 on a failed transaction. -/
theorem UpdateStatus_terminal_witness :
    readStatus (UpdateStatus (singleDB failedTx) "tx9" CANCELLED).2 "tx9"
      = Except.ok CANCELLED ∧
    (readStatus (UpdateStatus (singleDB failedTx) "tx9" CANCELLED).2 "tx9"
      = Except.ok failedTx.Status ↔ CANCELLED = failedTx.Status) :=
  UpdateStatus_terminal (singleDB failedTx) "tx9" CANCELLED failedTx rfl
    (Or.inr (Or.inl rfl)) rfl

/-- C4 (counterexample): the pair (`CANCELLED`, `COMPLETED`) is none of the
three edges out of `PENDING`, yet `UpdateStatus` returns no error and the
stored status changes from `CANCELLED` to `COMPLETED`. -/
theorem illegal_edge_written :
    readStatus (singleDB cancelledTx) "tx1" = Except.ok CANCELLED ∧
    CANCELLED ≠ PENDING ∧
    (UpdateStatus (singleDB cancelledTx) "tx1" COMPLETED).1 = none ∧
    readStatus (UpdateStatus (singleDB cancelledTx) "tx1" COMPLETED).2 "tx1"
      = Except.ok COMPLETED ∧
    (UpdateStatus (singleDB cancelledTx) "tx1" COMPLETED).2.rows
      ≠ (singleDB cancelledTx).rows := by
  refine ⟨rfl, by decide, rfl, rfl, ?_⟩
  intro h
  have h2 : ((UpdateStatus (singleDB cancelledTx) "tx1" COMPLETED).2.rows.map
      (fun r => r.Status)) = (singleDB cancelledTx).rows.map (fun r => r.Status) := by rw [h]
  revert h2
  decide

/-- C4 (amended): `UpdateStatus` checks no edge. For a stored transaction and
an `UpdateStatus` on its ID that returns no error, whatever the pair (stored
status, requested status), the stored record afterwards has the requested
status and the ID and the amount it had. -/
theorem UpdateStatus_any_edge (db : DB) (txID status : String) (r : Transaction)
    (hr : getRow db txID = some r) (hok : (UpdateStatus db txID status).1 = none) :
    ∃ r' : Transaction, getRow (UpdateStatus db txID status).2 txID = some r' ∧
      r'.Status = status ∧ r'.ID = r.ID ∧ r'.Amount = r.Amount := by
  have hid : r.ID = txID := getRow_ID db txID r hr
  refine ⟨{ r with Status := status }, ?_, rfl, rfl, rfl⟩
  rw [getRow_UpdateStatus db txID status hok, hr, Option.map_some',
    setStatus_of_eq txID status r hid]

/-- Instance of the amended C4: a completed transaction set to a status outside
the vocabulary. -/
theorem UpdateStatus_any_edge_witness :
    ∃ r' : Transaction,
      getRow (UpdateStatus (singleDB completedTx) "tx1" "REFUNDED").2 "tx1" = some r' ∧
      r'.Status = "REFUNDED" ∧ r'.ID = completedTx.ID ∧ r'.Amount = completedTx.Amount :=
  UpdateStatus_any_edge (singleDB completedTx) "tx1" "REFUNDED" completedTx rfl rfl

/-- C5 (counterexample): on a table without rows, `UpdateStatus` on an ID that
is not stored returns no error. -/
theorem missing_record_no_error :
    hasID emptyDB "tx_missing" = false ∧
    (UpdateStatus emptyDB "tx_missing" COMPLETED).1 = none := by
  refine ⟨by decide, rfl⟩

/-- C5 (amended): for an ID that is not stored, `UpdateStatus` with any status
does not report the missing record: whenever its statement executes the call
returns no error, and in every case the database is unchanged. -/
theorem UpdateStatus_missing (db : DB) (txID status : String) (h : hasID db txID = false) :
    (db.execFailure (Statement.update status txID) = none →
      (UpdateStatus db txID status).1 = none) ∧
    (UpdateStatus db txID status).2 = db := by
  refine ⟨fun hexec => ?_, ?_⟩
  · rw [UpdateStatus_fst, hexec]
  · exact UpdateStatus_of_absent db txID status ((hasID_false_iff db txID).1 h)

/-- Instance of the amended C5 on the table of the test. -/
theorem UpdateStatus_missing_witness :
    (testDB.execFailure (Statement.update FAILED "tx_other") = none →
      (UpdateStatus testDB "tx_other" FAILED).1 = none) ∧
    (UpdateStatus testDB "tx_other" FAILED).2 = testDB :=
  UpdateStatus_missing testDB "tx_other" FAILED (by decide)

/-- C6 (counterexample): `CreateTransaction` with status `COMPLETED` for an ID
not yet stored succeeds and the stored record has status `COMPLETED`, not
`PENDING`. -/
theorem created_record_not_pending :
    hasID emptyDB "tx1" = false ∧
    (CreateTransaction emptyDB "tx1" 100.00 COMPLETED).1 = none ∧
    readStatus (CreateTransaction emptyDB "tx1" 100.00 COMPLETED).2 "tx1"
      = Except.ok COMPLETED ∧
    COMPLETED ≠ PENDING := by
  refine ⟨by decide, rfl, rfl, by decide⟩

/-- C6 (amended): for an ID not yet stored, every amount and every status,
after a successful `CreateTransaction` the stored record for that ID has the
supplied ID, the supplied amount and the supplied status (so it is `PENDING`
when the caller passes `PENDING`). -/
theorem CreateTransaction_stores (db : DB) (txID : String) (amount : Float) (status : String)
    (h : hasID db txID = false) (hok : (CreateTransaction db txID amount status).1 = none) :
    ∃ r : Transaction, getRow (CreateTransaction db txID amount status).2 txID = some r ∧
      r.ID = txID ∧ r.Amount = amount ∧ r.Status = status := by
  have habs := (hasID_false_iff db txID).1 h
  unfold CreateTransaction at hok ⊢
  split
  · next e he => simp [he] at hok
  · next he =>
    simp only [h, Bool.and_false, Bool.false_eq_true, if_false, getRow]
    rw [find_append_of_absent txID db.rows _ habs]
    simp [List.find?]

/-- Instance of the amended C6: the creation done by the test. -/
theorem CreateTransaction_stores_witness :
    ∃ r : Transaction,
      getRow (CreateTransaction emptyDB "tx_concurrent_test_0" 100.00 PENDING).2
        "tx_concurrent_test_0" = some r ∧
      r.ID = "tx_concurrent_test_0" ∧ r.Amount = 100.00 ∧ r.Status = PENDING :=
  CreateTransaction_stores emptyDB "tx_concurrent_test_0" 100.00 PENDING (by decide) rfl

/-- C7: for a stored ID and any status `s`, reading the status right after a
successful `UpdateStatus(id, s)` returns `s`. -/
theorem read_after_UpdateStatus (db : DB) (txID s : String) (hid : hasID db txID = true)
    (hok : (UpdateStatus db txID s).1 = none) :
    readStatus (UpdateStatus db txID s).2 txID = Except.ok s := by
  have hsome : (getRow db txID).isSome = true := by rw [getRow_isSome, hid]
  obtain ⟨r, hr⟩ := Option.isSome_iff_exists.1 hsome
  have hrid : r.ID = txID := getRow_ID db txID r hr
  simp [readStatus, getRow_UpdateStatus db txID s hok, hr, setStatus_of_eq txID s r hrid]

/-- Instance of C7: the final read of the test after an update. -/
theorem read_after_UpdateStatus_witness :
    readStatus (UpdateStatus testDB "tx_concurrent_test_0" COMPLETED).2 "tx_concurrent_test_0"
      = Except.ok COMPLETED :=
  read_after_UpdateStatus testDB "tx_concurrent_test_0" COMPLETED (by decide) rfl

/-- C8 (counterexample): no `Version` can be read off the stored records. For
every assignment of a number to records, the three parts of the claim cannot
all hold: setting a stored `PENDING` record to `COMPLETED`, and setting that
`COMPLETED` record to `PENDING`, are two successful status mutations, and the
number cannot be one more after each of them. -/
theorem no_version_on_records :
    ¬ ∃ version : Transaction → Nat,
      (∀ (db : DB) (txID : String) (amount : Float) (status : String) (r : Transaction),
        hasID db txID = false →
        (CreateTransaction db txID amount status).1 = none →
        getRow (CreateTransaction db txID amount status).2 txID = some r →
        version r = 1) ∧
      (∀ (db : DB) (txID status : String) (r r' : Transaction),
        getRow db txID = some r →
        (UpdateStatus db txID status).1 = none →
        getRow (UpdateStatus db txID status).2 txID = some r' →
        r'.Status ≠ r.Status →
        version r' = version r + 1) ∧
      (∀ (db : DB) (txID status : String) (r r' : Transaction),
        getRow db txID = some r →
        (UpdateStatus db txID status).1 ≠ none →
        getRow (UpdateStatus db txID status).2 txID = some r' →
        version r' = version r) := by
  rintro ⟨version, -, hstep, -⟩
  have h1 := hstep (singleDB pendingTx) "tx1" COMPLETED pendingTx completedTx
    rfl rfl rfl (by decide)
  have h2 := hstep (singleDB completedTx) "tx1" PENDING completedTx pendingTx
    rfl rfl rfl (by decide)
  omega

/-- C8 (amended): no `Version` is kept. Whatever number is read off a stored
record, some successful status mutation by `UpdateStatus` does not increment it
by exactly 1; and a failed `UpdateStatus` leaves every stored record, and so
any number read off it, unchanged. -/
theorem UpdateStatus_keeps_no_version :
    (∀ version : Transaction → Nat,
      ∃ (db : DB) (txID status : String) (r r' : Transaction),
        getRow db txID = some r ∧
        (UpdateStatus db txID status).1 = none ∧
        getRow (UpdateStatus db txID status).2 txID = some r' ∧
        r'.Status ≠ r.Status ∧
        version r' ≠ version r + 1) ∧
    (∀ (db : DB) (txID status : String),
      (UpdateStatus db txID status).1 ≠ none → (UpdateStatus db txID status).2 = db) := by
  refine ⟨fun version => ?_, fun db txID status h => UpdateStatus_of_failed db txID status h⟩
  by_cases hv : version completedTx = version pendingTx + 1
  · refine ⟨singleDB completedTx, "tx1", PENDING, completedTx, pendingTx,
      rfl, rfl, rfl, by decide, ?_⟩
    omega
  · exact ⟨singleDB pendingTx, "tx1", COMPLETED, pendingTx, completedTx,
      rfl, rfl, rfl, by decide, hv⟩

/-- C9: after `UpdateStatus(id, status)` the stored IDs are the same, row by
row every record keeps its ID and its amount and every record with another ID
is unchanged, the record found for `id` has the ID and amount it had, and the
record found for any other ID is the one found before. -/
theorem UpdateStatus_frame (db : DB) (txID status : String) :
    (UpdateStatus db txID status).2.rows.map (fun r => r.ID) = db.rows.map (fun r => r.ID) ∧
    List.Forall₂ (fun r r' => r'.ID = r.ID ∧ r'.Amount = r.Amount ∧ (r.ID ≠ txID → r' = r))
      db.rows (UpdateStatus db txID status).2.rows ∧
    (getRow (UpdateStatus db txID status).2 txID).map (fun r => (r.ID, r.Amount))
      = (getRow db txID).map (fun r => (r.ID, r.Amount)) ∧
    (∀ other : String, other ≠ txID →
      getRow (UpdateStatus db txID status).2 other = getRow db other) ∧
    (UpdateStatus db txID status).2.primaryKey = db.primaryKey := by
  refine ⟨?_, ?_, ?_, fun other h => getRow_of_ne db txID status other h, ?_⟩
  · rcases UpdateStatus_rows db txID status with hrows | hrows
    · rw [hrows, List.map_map]
      apply List.map_congr_left
      intro r _
      exact setStatus_ID txID status r
    · rw [hrows]
  · rcases UpdateStatus_rows db txID status with hrows | hrows
    · rw [hrows]
      induction db.rows with
      | nil => exact List.Forall₂.nil
      | cons r rest ih =>
        exact List.Forall₂.cons
          ⟨setStatus_ID txID status r, setStatus_Amount txID status r,
            fun hne => setStatus_of_ne txID status r hne⟩ ih
    · rw [hrows]
      induction db.rows with
      | nil => exact List.Forall₂.nil
      | cons r rest ih => exact List.Forall₂.cons ⟨rfl, rfl, fun _ => rfl⟩ ih
  · by_cases hok : (UpdateStatus db txID status).1 = none
    · rw [getRow_UpdateStatus db txID status hok, Option.map_map]
      congr 1
      funext r
      simp [setStatus_ID, setStatus_Amount]
    · rw [UpdateStatus_of_failed db txID status hok]
  · unfold UpdateStatus
    split <;> rfl

/-- C10: calling `UpdateStatus(id, s)` twice in a row returns the same result
and leaves the same database as calling it once. -/
theorem UpdateStatus_idempotent (db : DB) (txID s : String) :
    UpdateStatus (UpdateStatus db txID s).2 txID s = UpdateStatus db txID s := by
  cases h : db.execFailure (Statement.update s txID) with
  | some e => simp [UpdateStatus, h]
  | none =>
    simp only [UpdateStatus, h, List.map_map]
    congr 2
    apply List.map_congr_left
    intro r _
    exact setStatus_setStatus txID s s r

end TxProcessor
